import Mathlib

/-!
Shallow embedding of the settlement core of a Telegram-premium payment bot:
order store (core/database.py), settlement monitor (services/monitor.py),
expiry sweeper (services/cleaner.py), gateway webhook (services/okpay.py,
web_app.py), wallet derivation (services/hd_wallet.py) and the order-creation
handler (handlers/user.py).  Machine floats stored in SQLite REAL columns are
modelled as rationals; Python dicts that flow through the code are modelled as
association lists of Python values.  Each claim about the specification is
settled by a theorem at the end of the file.
-/

set_option maxRecDepth 100000

namespace Xgacf

/-! ## Python values

The services pass JSON-decoded Python dicts around.  Two levels suffice for
every dict the code builds: scalar JSON values, and one level of nesting for
the webhook body whose `data` field is itself a dict of scalars. -/

/-- A scalar Python/JSON value as it appears in the dicts handled by the
services: `None`, a bool, an int, or a str. -/
inductive PyScalar where
  | null
  | bool (b : Bool)
  | int (n : Int)
  | str (s : String)
deriving DecidableEq, Repr

/-- A Python value occurring in a top-level webhook body: a scalar, or a dict
of scalars (the `data` field of the gateway callback). -/
inductive PyVal where
  | scalar (v : PyScalar)
  | dict (entries : List (String × PyScalar))
deriving DecidableEq, Repr

/-- A flat Python dict of scalars, e.g. the result dict of
`FragmentService.execute_purchase` or the webhook callback data. -/
abbrev PyDict := List (String × PyScalar)

/-- Python truthiness of a scalar: `None`, `False`, `0` and the empty string
are falsy. -/
def pyScalarTruthy : PyScalar → Bool
  | .null => false
  | .bool b => b
  | .int n => n != 0
  | .str s => s != ""

/-- Python truthiness of a value; a dict is truthy iff it is non-empty. -/
def pyValTruthy : PyVal → Bool
  | .scalar v => pyScalarTruthy v
  | .dict es => !es.isEmpty

/-- Python truthiness of a dict (`if success:` in `Monitor._process_success`
applies this to the result dict of `execute_purchase`): non-empty is truthy. -/
def pyTruthyDict (d : PyDict) : Bool := !d.isEmpty

/-- `d.get(k)` on a flat dict. -/
def pyGet (d : PyDict) (k : String) : Option PyScalar :=
  (d.find? (fun p => p.1 == k)).map (·.2)

/-- Truthiness of `d.get(k)` (used for `result.get("success")` in
`OkPayService.handle_notification`): a missing key is `None`, hence falsy. -/
def pyGetTruthy (d : PyDict) (k : String) : Bool :=
  match pyGet d k with
  | some v => pyScalarTruthy v
  | none => false

/-- A single quote character, used by the Python `repr` of strings. -/
def squote : String := (Char.ofNat 39).toString

/-- ASCII uppercase of one character, as Python `str.upper` acts on the
hex-digit alphabet. -/
def asciiUpperChar (c : Char) : Char :=
  if 97 ≤ c.toNat ∧ c.toNat ≤ 122 then Char.ofNat (c.toNat - 32) else c

/-- ASCII lowercase of one character. -/
def asciiLowerChar (c : Char) : Char :=
  if 65 ≤ c.toNat ∧ c.toNat ≤ 90 then Char.ofNat (c.toNat + 32) else c

/-- ASCII uppercase of a string (`.upper()` on an ASCII hex digest). -/
def asciiUpper (s : String) : String := String.mk (s.data.map asciiUpperChar)

/-- ASCII lowercase of a string. -/
def asciiLower (s : String) : String := String.mk (s.data.map asciiLowerChar)

/-- Python `str()` of a scalar: `str(1) = "1"`, `str(True) = "True"`,
`str(None) = "None"`, strings unchanged. -/
def pyScalarStr : PyScalar → String
  | .null => "None"
  | .bool true => "True"
  | .bool false => "False"
  | .int n => toString n
  | .str s => s

/-- Python `repr` of a scalar: like `str` but strings are single-quoted. -/
def pyReprScalar : PyScalar → String
  | .str s => squote ++ s ++ squote
  | v => pyScalarStr v

/-- Python `str()` of a dict of scalars, exactly the `repr` form
`\x7b'k': v, ...\x7d` that `urlencode` produces when a dict value is passed
through `str()`. -/
def pyReprDict (es : List (String × PyScalar)) : String :=
  "\x7b" ++
    String.intercalate ", "
      (es.map (fun p => squote ++ p.1 ++ squote ++ ": " ++ pyReprScalar p.2)) ++
    "\x7d"

/-- Python `str()` of a value used when url-encoding a signing payload. -/
def pyValStr : PyVal → String
  | .scalar v => pyScalarStr v
  | .dict es => pyReprDict es

/-! ## MD5

`OkPayService._generate_sign` signs the canonical payload with
`hashlib.md5(...).hexdigest().upper()`.  The digest is embedded here in full
so the signature path can be evaluated on concrete payloads.  Words are
naturals reduced modulo `2 ^ 32`; input strings are taken byte-wise (all
strings signed by the service are ASCII, where code points coincide with
UTF-8 bytes). -/

/-- Reduce a natural to a 32-bit word. -/
def u32 (n : Nat) : Nat := n % 4294967296

/-- 32-bit left rotation. -/
def rotl32 (x c : Nat) : Nat := u32 (x <<< c) ||| (x >>> (32 - c))

/-- The 64 MD5 round constants `floor(abs(sin(i + 1)) * 2 ^ 32)`. -/
def md5KTable : List Nat :=
  [3614090360, 3905402710, 606105819, 3250441966, 4118548399, 1200080426, 2821735955, 4249261313,
   1770035416, 2336552879, 4294925233, 2304563134, 1804603682, 4254626195, 2792965006, 1236535329,
   4129170786, 3225465664, 643717713, 3921069994, 3593408605, 38016083, 3634488961, 3889429448,
   568446438, 3275163606, 4107603335, 1163531501, 2850285829, 4243563512, 1735328473, 2368359562,
   4294588738, 2272392833, 1839030562, 4259657740, 2763975236, 1272893353, 4139469664, 3200236656,
   681279174, 3936430074, 3572445317, 76029189, 3654602809, 3873151461, 530742520, 3299628645,
   4096336452, 1126891415, 2878612391, 4237533241, 1700485571, 2399980690, 4293915773, 2240044497,
   1873313359, 4264355552, 2734768916, 1309151649, 4149444226, 3174756917, 718787259, 3951481745]

/-- The 64 MD5 per-round left-rotation amounts. -/
def md5STable : List Nat :=
  [7, 12, 17, 22, 7, 12, 17, 22, 7, 12, 17, 22, 7, 12, 17, 22,
   5, 9, 14, 20, 5, 9, 14, 20, 5, 9, 14, 20, 5, 9, 14, 20,
   4, 11, 16, 23, 4, 11, 16, 23, 4, 11, 16, 23, 4, 11, 16, 23,
   6, 10, 15, 21, 6, 10, 15, 21, 6, 10, 15, 21, 6, 10, 15, 21]

/-- MD5 round function: F, G, H, I by round group. -/
def md5F (i b c d : Nat) : Nat :=
  if i < 16 then (b &&& c) ||| ((4294967295 ^^^ b) &&& d)
  else if i < 32 then (d &&& b) ||| ((4294967295 ^^^ d) &&& c)
  else if i < 48 then b ^^^ c ^^^ d
  else c ^^^ (b ||| (4294967295 ^^^ d))

/-- MD5 message-word index for step `i`. -/
def md5G (i : Nat) : Nat :=
  if i < 16 then i
  else if i < 32 then (5 * i + 1) % 16
  else if i < 48 then (3 * i + 5) % 16
  else (7 * i) % 16

/-- The running MD5 state `(a, b, c, d)`. -/
structure MD5State where
  a : Nat
  b : Nat
  c : Nat
  d : Nat
deriving DecidableEq, Repr

/-- One of the 64 MD5 steps; `M` looks up the 16 words of the current block. -/
def md5Round (M : Nat → Nat) (st : MD5State) (i : Nat) : MD5State :=
  let f := u32 (md5F i st.b st.c st.d)
  let rotated := rotl32 (u32 (st.a + f + md5KTable.getD i 0 + M (md5G i))) (md5STable.getD i 0)
  { a := st.d, b := u32 (st.b + rotated), c := st.b, d := st.c }

/-- Little-endian 32-bit word `j` of a 64-byte block. -/
def leWord (block : List Nat) (j : Nat) : Nat :=
  block.getD (4 * j) 0 + 256 * block.getD (4 * j + 1) 0 +
    65536 * block.getD (4 * j + 2) 0 + 16777216 * block.getD (4 * j + 3) 0

/-- Process one 64-byte block. -/
def md5Chunk (h : MD5State) (block : List Nat) : MD5State :=
  let st := (List.range 64).foldl (md5Round (leWord block)) h
  { a := u32 (h.a + st.a), b := u32 (h.b + st.b), c := u32 (h.c + st.c), d := u32 (h.d + st.d) }

/-- The 8 little-endian bytes of the 64-bit bit length. -/
def lenBytes8 (n : Nat) : List Nat :=
  (List.range 8).map (fun i => (n >>> (8 * i)) % 256)

/-- MD5 padding: append `0x80`, zeros to 56 mod 64, then the bit length. -/
def md5Pad (msg : List Nat) : List Nat :=
  let ml := msg.length
  msg ++ [128] ++ List.replicate ((120 - ((ml + 1) % 64)) % 64) 0 ++ lenBytes8 (ml * 8)

/-- Split a padded message into its 64-byte blocks. -/
def md5Blocks (padded : List Nat) : List (List Nat) :=
  (List.range (padded.length / 64)).map (fun i => (padded.drop (64 * i)).take 64)

/-- Bytes of a string, byte-wise code points (ASCII inputs). -/
def strBytes (s : String) : List Nat := s.toList.map Char.toNat

/-- A lowercase hexadecimal digit. -/
def hexChar (n : Nat) : Char :=
  if n < 10 then Char.ofNat (48 + n) else Char.ofNat (87 + n)

/-- Two lowercase hex digits of one byte. -/
def byteHex (b : Nat) : String := String.mk [hexChar (b / 16), hexChar (b % 16)]

/-- The four output bytes of each state word, little-endian. -/
def le4 (n : Nat) : List Nat := [n % 256, (n >>> 8) % 256, (n >>> 16) % 256, (n >>> 24) % 256]

/-- The MD5 hex digest of a string, lowercase, as `hashlib.md5(...).hexdigest()`. -/
def md5Hex (s : String) : String :=
  let blocks := md5Blocks (md5Pad (strBytes s))
  let fin := blocks.foldl md5Chunk { a := 1732584193, b := 4023233417, c := 2562383102, d := 271733878 }
  String.join ((le4 fin.a ++ le4 fin.b ++ le4 fin.c ++ le4 fin.d).map byteHex)

/-! ## Webhook signature (services/okpay.py)

`_generate_sign` copies the dict, sets `data['id'] = api_key`, drops entries
whose value is `''` or `None`, sorts by key, url-encodes, appends
`&token=<secret>`, un-quotes, and takes the uppercase MD5 hex digest.  Since
`quote` followed by `unquote` is the identity on the rendered values, the
canonical string is the plain `k=str(v)` form joined by `&`. -/

/-- Lexicographic comparison of char lists by code point — Python string
ordering, which `sorted` applies to the dict keys. -/
def charListLt : List Char → List Char → Bool
  | [], [] => false
  | [], _ :: _ => true
  | _ :: _, [] => false
  | c :: cs, d :: ds =>
    if c.toNat < d.toNat then true
    else if d.toNat < c.toNat then false
    else charListLt cs ds

/-- Python `<` on strings: code-point lexicographic order. -/
def strLt (a b : String) : Bool := charListLt a.data b.data

/-- Insert one entry into a key-sorted list (keys in the signed dicts are
unique, mirroring Python dict keys). -/
def insertEntry (p : String × PyVal) : List (String × PyVal) → List (String × PyVal)
  | [] => [p]
  | q :: rest => if strLt p.1 q.1 then p :: q :: rest else q :: insertEntry p rest

/-- Sort the dict entries by key, as `sorted(data_with_id.items())` does. -/
def sortEntries (l : List (String × PyVal)) : List (String × PyVal) :=
  l.foldr insertEntry []

/-- `data_with_id['id'] = api_key`: replace or append the `id` entry. -/
def setIdEntry (entries : List (String × PyVal)) (apiKey : String) : List (String × PyVal) :=
  entries.filter (fun p => p.1 != "id") ++ [("id", PyVal.scalar (.str apiKey))]

/-- Entry filter of `_generate_sign`: keep values that are neither the empty
string nor `None` (a dict value is always kept). -/
def keepEntry : PyVal → Bool
  | .scalar (.str s) => s != ""
  | .scalar .null => false
  | _ => true

/-- The string that `_generate_sign` feeds to MD5: non-empty fields with the
shop id added, sorted by key, rendered `k=str(v)` joined by `&`, with
`&token=<secret>` appended. -/
def canonical_string (apiKey secret : String) (entries : List (String × PyVal)) : String :=
  let sorted := sortEntries ((setIdEntry entries apiKey).filter (fun p => keepEntry p.2))
  String.intercalate "&" (sorted.map (fun p => p.1 ++ "=" ++ pyValStr p.2)) ++
    "&token=" ++ secret

/-- `OkPayService._generate_sign`: uppercase MD5 hex digest of the canonical
string. -/
def generate_sign (apiKey secret : String) (entries : List (String × PyVal)) : String :=
  asciiUpper (md5Hex (canonical_string apiKey secret entries))

/-- `OkPayService.verify_sign`: read `sign` from the dict, reject a missing or
falsy one, recompute the signature over the remaining entries and compare with
`==` (exact string equality; a non-string `sign` never equals the digest
string in Python). -/
def verify_sign (apiKey secret : String) (d : List (String × PyVal)) : Bool :=
  match (d.find? (fun p => p.1 == "sign")).map (·.2) with
  | none => false
  | some sv =>
    if !pyValTruthy sv then false
    else
      let rest := d.filter (fun p => p.1 != "sign")
      match sv with
      | .scalar (.str s) => s == generate_sign apiKey secret rest
      | _ => false

/-! ## Order data model (core/database.py)

The `orders` table row.  SQLite REAL columns are modelled as rationals,
nullable TEXT columns as `Option String`, and `created_at` as a timestamp in
seconds. -/

/-- The SQLite column type declared in `create_tables`. -/
inductive SqlColType where
  | integer
  | text
  | real
  | timestamp
deriving DecidableEq, Repr

/-- The schema of the `orders` table as declared in `Database.create_tables`
(`okpay_url` is added by `_migrate_database` on older databases). -/
def ordersSchema : List (String × SqlColType) :=
  [("id", .integer), ("order_id", .text), ("user_id", .integer), ("username", .text),
   ("target", .text), ("months", .integer), ("amount_usdt", .real), ("amount_ton", .real),
   ("price_ton", .real), ("wallet_index", .integer), ("payment_method", .text),
   ("ton_addr", .text), ("trc20_addr", .text), ("okpay_url", .text), ("status", .text),
   ("created_at", .timestamp)]

/-- One row of the `orders` table. -/
structure Order where
  order_id : String
  user_id : Int
  username : Option String
  target : String
  months : Nat
  amount_usdt : Rat
  amount_ton : Rat
  price_ton : Rat
  wallet_index : Nat
  payment_method : String
  ton_addr : Option String
  trc20_addr : Option String
  okpay_url : Option String
  status : String
  created_at : Int
deriving DecidableEq, Repr

/-- The dict passed to `Database.create_order`; keys read with `.get` that the
order-creation handler may omit are optional, and `status` defaults to
`'created'` when absent. -/
structure CreateData where
  order_id : String
  user_id : Int
  username : Option String
  target : String
  months : Nat
  amount_usdt : Rat
  amount_ton : Rat
  price_ton : Rat
  wallet_index : Nat
  payment_method : String
  ton_addr : Option String
  trc20_addr : Option String
  status : Option String
deriving DecidableEq, Repr

/-- The row inserted by `create_order` for `data` at time `now`: columns
absent from the INSERT list (`okpay_url`, `created_at`) take their defaults,
so a replaced row loses its `okpay_url` and gets a fresh `created_at`. -/
def newRowOf (d : CreateData) (now : Int) : Order :=
  { order_id := d.order_id, user_id := d.user_id, username := d.username,
    target := d.target, months := d.months, amount_usdt := d.amount_usdt,
    amount_ton := d.amount_ton, price_ton := d.price_ton,
    wallet_index := d.wallet_index, payment_method := d.payment_method,
    ton_addr := d.ton_addr, trc20_addr := d.trc20_addr, okpay_url := none,
    status := d.status.getD "created", created_at := now }

/-- `Database.create_order`: `INSERT OR REPLACE` keyed on the UNIQUE
`order_id` — any existing row with the same id is deleted and the fresh row
inserted — and the method returns `True`. -/
def create_order (store : List Order) (d : CreateData) (now : Int) : Bool × List Order :=
  (true, store.filter (fun o => o.order_id != d.order_id) ++ [newRowOf d now])

/-- `Database.get_order`: the row with the given `order_id`, if any. -/
def get_order (store : List Order) (oid : String) : Option Order :=
  store.find? (fun o => o.order_id == oid)

/-- `Database.update_order_status`: set `status` on every row with the id. -/
def update_order_status (store : List Order) (oid status : String) : List Order :=
  store.map (fun o => if o.order_id == oid then { o with status := status } else o)

/-- `Database.delete_order`: remove the row with the id. -/
def delete_order (store : List Order) (oid : String) : List Order :=
  store.filter (fun o => o.order_id != oid)

/-- `Database.get_all_checking_orders`: rows in `checking` or `paid`. -/
def get_all_checking_orders (store : List Order) : List Order :=
  store.filter (fun o => o.status == "checking" || o.status == "paid")

/-- `Database.mark_order_expired`: set the status to `expired`. -/
def mark_order_expired (store : List Order) (oid : String) : List Order :=
  update_order_status store oid "expired"

/-! ## SQL parameter binding (aiosqlite / sqlite3)

`cursor.execute(sql, parameters)` requires `parameters` to be a sequence (or
mapping); passing a plain integer raises
`ValueError: parameters are of unsupported type`.
`get_expired_pending_orders` passes the tuple `("pending", minutes)`, while
`get_expired_checking_orders` passes `(minutes)` — which in Python is not a
tuple but the bare integer `minutes`. -/

/-- A bindable SQL parameter value. -/
inductive SqlParam where
  | int (n : Int)
  | text (s : String)
deriving DecidableEq, Repr

/-- What the Python call site hands to `execute`: a real sequence, or a bare
scalar (the result of writing `(x)` instead of `(x,)`). -/
inductive SqlParamsArg where
  | seq (ps : List SqlParam)
  | scalar (p : SqlParam)
deriving DecidableEq, Repr

/-- The sqlite3 binding contract: sequences bind, a bare scalar raises. -/
def bindParams : SqlParamsArg → Except String (List SqlParam)
  | .seq ps => .ok ps
  | .scalar _ => .error "parameters are of unsupported type"

/-- `Database.get_expired_pending_orders`: parameters passed as the tuple
`("pending", minutes)`; rows in `pending` created more than `minutes` minutes
before `now`. -/
def get_expired_pending_orders (store : List Order) (now : Int) (minutes : Int) :
    Except String (List Order) :=
  (bindParams (.seq [.text "pending", .int minutes])).map (fun _ =>
    store.filter (fun o => o.status == "pending" && decide (o.created_at < now - minutes * 60)))

/-- `Database.get_expired_checking_orders`: the source passes `(minutes)` — a
bare integer, not a tuple — so the sqlite3 binding step fails before the query
can run. -/
def get_expired_checking_orders (store : List Order) (now : Int) (minutes : Int) :
    Except String (List Order) :=
  (bindParams (.scalar (.int minutes))).map (fun _ =>
    store.filter (fun o =>
      (o.status == "checking" || o.status == "paid") &&
        decide (o.created_at < now - minutes * 60)))

/-! ## Expiry sweeper (services/cleaner.py)

Side-channel messages are modelled as `(user_id, tag)` events; the exact
message text is immaterial to the claims. -/

/-- `OrderCleaner.clean_checking_orders`: fetch the timed-out
`checking`/`paid` orders and mark each `expired` with a support-contact
notice.  The whole body sits in a `try` whose `except` only logs, so a raised
fetch leaves the store untouched and sends nothing. -/
def clean_checking_orders (store : List Order) (now : Int) (timeout : Int) :
    List Order × List (Int × String) :=
  match get_expired_checking_orders store now timeout with
  | .error _ => (store, [])
  | .ok expired =>
    expired.foldl
      (fun acc o =>
        (mark_order_expired acc.1 o.order_id,
         acc.2 ++ [(o.user_id, "payment_not_received_contact_support")]))
      (store, [])

/-- `OrderCleaner.clean_pending_orders`: notify and delete each timed-out
`pending` order. -/
def clean_pending_orders (store : List Order) (now : Int) (timeout : Int) :
    List Order × List (Int × String) :=
  match get_expired_pending_orders store now timeout with
  | .error _ => (store, [])
  | .ok expired =>
    expired.foldl
      (fun acc o =>
        (delete_order acc.1 o.order_id, acc.2 ++ [(o.user_id, "order_expired_auto_cancelled")]))
      (store, [])

/-! ## Fulfillment provider (services/fragment.py)

`FragmentService.execute_purchase` returns a Python dict, never a bare bool:
`\x7b"success": True, "tx_hash": ...\x7d` on success and
`\x7b"success": False, "error": ...\x7d` on every failure path.  The network
steps inside one retry attempt are abstracted into an outcome per attempt. -/

/-- What one iteration of the `execute_purchase` retry loop runs into. -/
inductive AttemptOutcome where
  | sent (txHash : String)
  | clientNone
  | walletNone
  | connectRaise (msg : String)
  | liteError (msg : String)
  | otherExc (msg : String)
deriving DecidableEq, Repr

/-- The parsed Fragment order returned by
`create_premium_order_and_get_price`. -/
structure OrderInfo where
  ref_id : String
  amount : Rat
  dest_address : String
deriving DecidableEq, Repr

/-- The outcomes of the external calls made by one `execute_purchase` run. -/
structure FragmentEnv where
  orderInfo : Option OrderInfo
  attempt : Nat → AttemptOutcome

/-- The retry loop of `execute_purchase` (`max_retries = 3`): a
`LiteServerError` retries until the attempts run out, every other outcome
returns at once. -/
def runAttempts (att : Nat → AttemptOutcome) (i : Nat) : Nat → PyDict
  | 0 => [("success", .bool false), ("error", .str "Unknown error during purchase")]
  | rem + 1 =>
    match att i with
    | .sent tx => [("success", .bool true), ("tx_hash", .str tx)]
    | .clientNone => [("success", .bool false), ("error", .str "Cannot connect to TON node")]
    | .walletNone => [("success", .bool false), ("error", .str "Wallet initialization failed")]
    | .connectRaise m => [("success", .bool false), ("error", .str m)]
    | .otherExc m => [("success", .bool false), ("error", .str m)]
    | .liteError m =>
      if rem = 0 then [("success", .bool false), ("error", .str ("Network retry failed: " ++ m))]
      else runAttempts att (i + 1) rem

/-- `FragmentService.execute_purchase`: validate the order fields, fetch the
Fragment order, then run the payment attempts.  Always returns a non-empty
result dict with a boolean `success` field. -/
def execute_purchase (env : FragmentEnv) (o : Order) : PyDict :=
  if o.target = "" ∨ o.months = 0 then
    [("success", .bool false), ("error", .str "Missing parameters")]
  else
    match env.orderInfo with
    | none => [("success", .bool false), ("error", .str "Failed to get order info from Fragment")]
    | some _ => runAttempts env.attempt 0 3

/-! ## Settlement monitor (services/monitor.py) -/

/-- `int(expected_usdt * 1_000_000)`: Python `int()` truncates toward zero,
so for the stored amount `q` (a REAL value, modelled as the reduced rational
`q.num / q.den`) the required balance is the truncated quotient
`(q.num * 1000000).tdiv q.den`. -/
def usdtMinorUnits (q : Rat) : Int := Int.tdiv (q.num * 1000000) (q.den : Int)

/-- The result of one monitor action on one order: the store afterwards, how
many times the fulfillment provider was invoked, how many times the order was
marked `paid`, and the user notices sent. -/
structure ProcOutcome where
  store : List Order
  fulfillCalls : Nat
  paidMarks : Nat
  notes : List (Int × String)
deriving DecidableEq, Repr

/-- `Monitor._process_success`: re-read the order; abort if it already
advanced to `paid`/`completed` (a missing row raises on `.get` and is caught
by the surrounding `except`); otherwise mark `paid`, obtain the purchase
result (skipped in debug mode), and branch on `if success:` — Python
truthiness of the value `execute_purchase` returned. -/
def process_success (store : List Order) (o : Order) (debugMode : Bool)
    (purchase : PyDict) : ProcOutcome :=
  match get_order store o.order_id with
  | none => { store := store, fulfillCalls := 0, paidMarks := 0, notes := [] }
  | some cur =>
    if cur.status = "paid" ∨ cur.status = "completed" then
      { store := store, fulfillCalls := 0, paidMarks := 0, notes := [] }
    else
      let s1 := update_order_status store o.order_id "paid"
      let succ := if debugMode then true else pyTruthyDict purchase
      let calls := if debugMode then 0 else 1
      if succ then
        { store := update_order_status s1 o.order_id "completed",
          fulfillCalls := calls, paidMarks := 1,
          notes := if o.user_id != 0 then [(o.user_id, "payment_successful_premium_activated")] else [] }
      else
        { store := update_order_status s1 o.order_id "checking",
          fulfillCalls := calls, paidMarks := 1, notes := [] }

/-- `Monitor.check_ton_payment`: skip orders without a receiving address,
read the on-chain balance (`none` models an empty result or a raised RPC
error, both of which leave the order unchanged), compare it as an integer with
`int(expected_usdt * 1_000_000)`, and on sufficiency run the success path. -/
def check_ton_payment (store : List Order) (o : Order) (debugMode : Bool)
    (balanceResult : Option Int) (purchase : PyDict) : ProcOutcome :=
  if (o.ton_addr.getD "") = "" then
    { store := store, fulfillCalls := 0, paidMarks := 0, notes := [] }
  else
    match balanceResult with
    | none => { store := store, fulfillCalls := 0, paidMarks := 0, notes := [] }
    | some bal =>
      if bal ≥ usdtMinorUnits o.amount_usdt then
        process_success store o debugMode purchase
      else
        { store := store, fulfillCalls := 0, paidMarks := 0, notes := [] }

/-! ## Gateway webhook (services/okpay.py, web_app.py) -/

/-- `db.get_order(unique_id)` with the scalar taken from the callback dict:
the TEXT `order_id` column never compares equal to a non-text value under
SQLite type affinity. -/
def get_order_by_scalar (store : List Order) : PyScalar → Option Order
  | .str s => get_order store s
  | _ => none

/-- `OkPayService.handle_notification`: reject a falsy `unique_id`;
acknowledge and ignore non-deposit or non-success callbacks; acknowledge an
unknown order id with a warning only; acknowledge an already-completed order;
otherwise mark `paid` (if not already), run `execute_purchase`, and mark
`completed` or revert to `checking` on `result.get("success")`. -/
def handle_notification (env : FragmentEnv) (store : List Order) (cb : PyDict) :
    Bool × List Order × List (Int × String) :=
  match pyGet cb "unique_id" with
  | none => (false, store, [])
  | some uid =>
    if !pyScalarTruthy uid then (false, store, [])
    else if pyGet cb "type" ≠ some (.str "deposit") ∨ pyGet cb "status" ≠ some (.int 1) then
      (true, store, [])
    else
      match uid, get_order_by_scalar store uid with
      | _, none => (true, store, [])
      | .str uidS, some order =>
        if order.status = "completed" then (true, store, [])
        else
          let step1 : List Order × List (Int × String) :=
            if order.status ≠ "paid" then
              (update_order_status store uidS "paid", [(order.user_id, "payment_received_processing")])
            else (store, [])
          let result := execute_purchase env order
          if pyGetTruthy result "success" then
            (true, update_order_status step1.1 uidS "completed",
             step1.2 ++ [(order.user_id, "fulfillment_successful")])
          else
            (true, update_order_status step1.1 uidS "checking", step1.2)
      | _, some _ => (true, store, [])

/-- The POST branch of `web_app.handle_okpay_notify` on a parsed JSON body:
source-IP allow-list, signature verification, presence of the `data` dict,
the deposit/success pre-checks, then `handle_notification`; the pair holds
the HTTP status code and the store afterwards. -/
def handle_okpay_post (env : FragmentEnv) (apiKey secret : String)
    (allowedIps : List String) (clientIp : String) (store : List Order)
    (body : List (String × PyVal)) : Nat × List Order × List (Int × String) :=
  if allowedIps ≠ [] ∧ clientIp ∉ allowedIps then (403, store, [])
  else if !verify_sign apiKey secret body then (403, store, [])
  else
    match (body.find? (fun p => p.1 == "data")).map (fun p => p.2) with
    | some (PyVal.dict cb) =>
      if pyGet cb "type" ≠ some (.str "deposit") then (200, store, [])
      else if pyGet cb "status" ≠ some (.int 1) then (200, store, [])
      else
        let r := handle_notification env store cb
        (if r.1 then 200 else 400, r.2)
    | _ => (400, store, [])

/-! ## Wallet derivation (services/hd_wallet.py) -/

/-- The `bip_utils` BIP-44 TRON derivation chain
(`Bip39SeedGenerator` → `Bip44.FromSeed` → account 0 → external chain →
`AddressIndex`), abstracted as a pure map from the mnemonic and the address
index to the base58 address; the library performs a fixed deterministic
computation with no network access. -/
structure TronDeriver where
  toAddress : String → Nat → String

/-- `HDWalletManager.generate_trc20_wallet`: the index is reduced into the
valid BIP-44 range with `index % (2 ** 32)` before derivation. -/
def generate_trc20_wallet (d : TronDeriver) (mnemonic : String) (index : Nat) : String :=
  d.toAddress mnemonic (index % 2 ^ 32)

/-! ## Order creation (handlers/user.py, `process_currency`) -/

/-- The wallet index assigned at order creation:
`abs(hash(f"{user_id}_{username}_{months}")) % 1000000`.  `pyHash` is the
process-wide Python string hash — deterministic within one interpreter run. -/
def wallet_index_of (pyHash : String → Int) (userId : Int) (target : String)
    (months : Nat) : Nat :=
  (pyHash (toString userId ++ "_" ++ target ++ "_" ++ toString months)).natAbs % 1000000

/-- The order id built at creation:
`f"ORD{int(asyncio.get_event_loop().time())}{user_id}"`. -/
def order_id_of (loopTime : Nat) (userId : Int) : String :=
  "ORD" ++ toString loopTime ++ toString userId

/-- The dict `process_currency` hands to `db.create_order`: status `pending`,
the hash-derived wallet index, and no address fields yet (they are filled in
by `update_order_wallet` after derivation). -/
def process_currency_order_data (pyHash : String → Int) (userId : Int)
    (username : Option String) (target : String) (months : Nat) (currency : String)
    (priceUsdt amountTon priceTon : Rat) (loopTime : Nat) : CreateData :=
  { order_id := order_id_of loopTime userId, user_id := userId, username := username,
    target := target, months := months, amount_usdt := priceUsdt,
    amount_ton := amountTon, price_ton := priceTon,
    wallet_index := wallet_index_of pyHash userId target months,
    payment_method := currency, ton_addr := none, trc20_addr := none,
    status := some "pending" }

/-- The `cancel:` callback handler (`handlers/user.py`, `cancel_order`): it
calls `db.delete_order(order_id)` unconditionally — there is no check of the
order's current status. -/
def cancel_order (store : List Order) (oid : String) : List Order :=
  delete_order store oid

/-! ## Concrete test inputs -/

/-- A TON-rail order awaiting settlement: 28.00 USDT due, status `checking`. -/
def sampleChecking : Order :=
  { order_id := "ORD1", user_id := 7, username := some "buyer", target := "alice",
    months := 3, amount_usdt := 28, amount_ton := 5, price_ton := 6, wallet_index := 42,
    payment_method := "ton", ton_addr := some "EQjw1", trc20_addr := none, okpay_url := none,
    status := "checking", created_at := 0 }

/-- A fulfilled order in the terminal `completed` state. -/
def sampleCompleted : Order :=
  { order_id := "ORDC", user_id := 9, username := some "buyer2", target := "bob",
    months := 6, amount_usdt := 52, amount_ton := 9, price_ton := 6, wallet_index := 77,
    payment_method := "trc20", ton_addr := none, trc20_addr := some "TXyz", okpay_url := none,
    status := "completed", created_at := 10 }

/-- An environment in which the Fragment order lookup fails, so
`execute_purchase` reports failure. -/
def failEnv : FragmentEnv := { orderInfo := none, attempt := fun _ => .sent "tx" }

/-- A successful purchase-result dict. -/
def purchaseOk : PyDict := [("success", .bool true), ("tx_hash", .str "abc")]

/-- A concrete stand-in for the process-wide Python string hash (any fixed
function: within one interpreter run `hash` is deterministic, which is all
the wallet-index collision depends on). -/
def lenHash : String → Int := fun s => s.length

/-- A concrete stand-in for the BIP-44 TRON derivation map. -/
def sampleDeriver : TronDeriver := { toAddress := fun mn i => mn ++ "/" ++ toString i }

/-- Creation data for a 28.00-USDT order (the C6 example). -/
def sampleCreate : CreateData :=
  { order_id := "ORD1", user_id := 7, username := some "buyer", target := "alice",
    months := 3, amount_usdt := 28, amount_ton := 5, price_ton := 6, wallet_index := 42,
    payment_method := "ton", ton_addr := none, trc20_addr := none, status := some "pending" }

/-- Creation data reusing the order id of `sampleCompleted` with different
fields, to exercise the `INSERT OR REPLACE` path. -/
def dupCreate : CreateData :=
  { order_id := "ORDC", user_id := 11, username := some "other", target := "carol",
    months := 12, amount_usdt := 96, amount_ton := 16, price_ton := 6, wallet_index := 5,
    payment_method := "okpay", ton_addr := none, trc20_addr := none, status := some "pending" }

/-- A verified-shape deposit callback whose order id matches no stored
order. -/
def innerNope : PyDict := [("unique_id", .str "NOPE"), ("status", .int 1), ("type", .str "deposit")]

/-- The webhook POST body around `innerNope`, carrying its genuine signature
for shop id `shop1` and secret `sek` (uppercase MD5 hex of
`data=\x7b'unique_id': 'NOPE', 'status': 1, 'type': 'deposit'\x7d&id=shop1&token=sek`). -/
def bodyNope : List (String × PyVal) :=
  [("data", .dict innerNope), ("sign", .scalar (.str "F6F843E6681B0A0259C22416D0BAB207"))]

/-- A payload whose `sign` is the lowercase form of its correct digest: it
matches the computed signature case-insensitively but not case-sensitively. -/
def lowerSignPayload : List (String × PyVal) :=
  [("unique_id", .scalar (.str "X")), ("sign", .scalar (.str "9a58cc687679a828e4f6892794887f81"))]

/-! ## Helper lemmas -/

/-- Rows filtered out by id can no longer be found by that id. -/
theorem find_filter_ne (store : List Order) (k : String) :
    (store.filter (fun o => o.order_id != k)).find? (fun o => o.order_id == k) = none := by
  induction store with
  | nil => rfl
  | cons a l ih =>
    by_cases h : a.order_id = k
    · simp [h, ih]
    · simp [List.filter_cons, h, List.find?_cons, ih]

/-- Looking an order up after a status update yields the updated record. -/
theorem get_order_update (store : List Order) (oid st : String) :
    get_order (update_order_status store oid st) oid =
      (get_order store oid).map (fun o => { o with status := st }) := by
  induction store with
  | nil => rfl
  | cons a l ih =>
    by_cases h : a.order_id = oid
    · simp [get_order, update_order_status, List.find?_cons, h]
    · simpa [get_order, update_order_status, List.find?_cons, h] using ih

/-- Finding by id in a store whose matching rows were filtered out and a
fresh matching row appended yields the fresh row. -/
theorem find_filtered_append (store : List Order) (k : String) (r : Order)
    (hr : r.order_id = k) :
    (store.filter (fun o => o.order_id != k) ++ [r]).find? (fun o => o.order_id == k) = some r := by
  induction store with
  | nil => simp [List.find?, hr]
  | cons a l ih =>
    by_cases h : a.order_id = k
    · simpa [h] using ih
    · simp [List.filter_cons, h, List.find?_cons, ih]

/-- Every return of the `execute_purchase` retry loop is a non-empty dict. -/
theorem runAttempts_ne_nil (att : Nat → AttemptOutcome) :
    ∀ (rem i : Nat), runAttempts att i rem ≠ [] := by
  intro rem
  induction rem with
  | zero => intro i; simp [runAttempts]
  | succ n ih =>
    intro i
    simp only [runAttempts]
    cases att i with
    | sent tx => simp
    | clientNone => simp
    | walletNone => simp
    | connectRaise m => simp
    | otherExc m => simp
    | liteError m =>
      by_cases h : n = 0
      · simp [h]
      · simpa [h] using ih (i + 1)

/-- `execute_purchase` always returns a truthy (non-empty) dict, so
`if success:` in the monitor always takes the success branch. -/
theorem execute_purchase_truthy (env : FragmentEnv) (o : Order) :
    pyTruthyDict (execute_purchase env o) = true := by
  unfold execute_purchase
  by_cases h : o.target = "" ∨ o.months = 0
  · simp [h, pyTruthyDict]
  · simp only [h, if_false]
    cases env.orderInfo with
    | none => simp [pyTruthyDict]
    | some info =>
      have hne := runAttempts_ne_nil env.attempt 3 0
      simp only [pyTruthyDict]
      cases hx : runAttempts env.attempt 0 3 with
      | nil => exact absurd hx hne
      | cons a l => simp

/-- On an order whose re-read status is `checking`, `_process_success` with a
truthy purchase result marks `paid` then `completed`. -/
theorem process_success_checking (store : List Order) (o : Order) (debug : Bool)
    (purchase : PyDict) (cur : Order) (hget : get_order store o.order_id = some cur)
    (hst : cur.status = "checking") (hp : pyTruthyDict purchase = true) :
    process_success store o debug purchase =
      { store := update_order_status (update_order_status store o.order_id "paid")
          o.order_id "completed",
        fulfillCalls := if debug then 0 else 1, paidMarks := 1,
        notes := if o.user_id != 0 then
            [(o.user_id, "payment_successful_premium_activated")] else [] } := by
  unfold process_success
  rw [hget]
  have hguard : ¬(cur.status = "paid" ∨ cur.status = "completed") := by
    rw [hst]; decide
  dsimp only
  rw [if_neg hguard]
  cases debug with
  | false => simp [hp]
  | true => simp

/-! ## Claims -/

/-- C1.  The claim says a failed fulfillment (`success` field false) leaves
the order at `checking` and never `completed`.  The code disagrees:
`_process_success` tests `if success:` on the dict returned by
`execute_purchase`, and a non-empty dict is truthy even when its `success`
field is `False`, so the failed order is marked `completed`.  Exhibit: a
concrete failing purchase whose result has `success = False`, after which the
monitor's success path stores status `completed`, not `checking`. -/
theorem c1_provider_failure_still_completes :
    pyGet (execute_purchase failEnv sampleChecking) "success" = some (.bool false) ∧
    (get_order (process_success [sampleChecking] sampleChecking false
        (execute_purchase failEnv sampleChecking)).store "ORD1").map (fun o => o.status) =
      some "completed" ∧
    (get_order (process_success [sampleChecking] sampleChecking false
        (execute_purchase failEnv sampleChecking)).store "ORD1").map (fun o => o.status) ≠
      some "checking" := by
  decide

/-- C2.  The claim says the expiry sweep marks every over-age
`checking`/`paid` order `expired` with a support-contact notice.  In the code
`get_expired_checking_orders` passes the bare integer `(minutes)` — not the
tuple `(minutes,)` — as the SQL parameter list, so the sqlite3 binding raises,
the sweep's `except` swallows the error, and no order is ever expired: the
sweep is the identity on every store.  Exhibit: a `checking` order 100
minutes old survives a 30-minute-timeout sweep unchanged. -/
theorem c2_checking_sweep_is_inert :
    (∀ (store : List Order) (now timeout : Int),
        clean_checking_orders store now timeout = (store, [])) ∧
    sampleChecking.status = "checking" ∧
    sampleChecking.created_at < 6000 - 30 * 60 ∧
    clean_checking_orders [sampleChecking] 6000 30 = ([sampleChecking], []) ∧
    get_expired_checking_orders [sampleChecking] 6000 30 =
      .error "parameters are of unsupported type" := by
  refine ⟨fun store now timeout => rfl, by decide, by decide, by decide, rfl⟩

/-- C6 counterexample.  The claim says the required amount is stored as an
integer in the smallest minor unit.  In the schema `amount_usdt` is a REAL
column, and the stored value for the 28.00-unit order is the major-unit
number 28, not the minor-unit integer 28000000. -/
theorem c6_stored_minor_unit_counterexample :
    ordersSchema.find? (fun p => p.1 == "amount_usdt") = some ("amount_usdt", SqlColType.real) ∧
    SqlColType.real ≠ SqlColType.integer ∧
    (get_order (create_order [] sampleCreate 0).2 "ORD1").map (fun o => o.amount_usdt) =
      some 28 ∧
    (28 : Rat) ≠ 28000000 := by
  decide

/-- C6 as amended.  The comparison itself is integer-valued: the monitor
converts the stored major-unit amount with `int(expected_usdt * 1_000_000)`
and compares integers, and the claim's example behaves as stated — for the
28.00-unit order a balance of 27999999 causes no transition while 28000000
marks the order paid (and onward). -/
theorem c6_integer_comparison_boundary :
    usdtMinorUnits sampleChecking.amount_usdt = 28000000 ∧
    check_ton_payment [sampleChecking] sampleChecking false (some 27999999) purchaseOk =
      { store := [sampleChecking], fulfillCalls := 0, paidMarks := 0, notes := [] } ∧
    (check_ton_payment [sampleChecking] sampleChecking false (some 28000000)
        purchaseOk).paidMarks = 1 ∧
    (get_order (check_ton_payment [sampleChecking] sampleChecking false (some 28000000)
        purchaseOk).store "ORD1").map (fun o => o.status) = some "completed" := by
  decide

/-- C7 counterexample.  The claim says the cancel action cannot remove an
order that is beyond `pending`; the handler deletes unconditionally, so a
`completed` order is removed by it. -/
theorem c7_cancel_completed_counterexample :
    sampleCompleted.status = "completed" ∧
    get_order [sampleCompleted] "ORDC" = some sampleCompleted ∧
    cancel_order [sampleCompleted] "ORDC" = [] ∧
    get_order (cancel_order [sampleCompleted] "ORDC") "ORDC" = none := by
  decide

/-- C7 as amended.  The cancel handler is `db.delete_order` with no status
guard: for every store and order id the cancelled order is removed, whatever
its status. -/
theorem c7_cancel_deletes_any_status :
    ∀ (store : List Order) (oid : String),
      cancel_order store oid = delete_order store oid ∧
      get_order (cancel_order store oid) oid = none := by
  intro store oid
  exact ⟨rfl, find_filter_ne store oid⟩

/-- C8.  TRC20 derivation is a pure function of the index reduced modulo
`2 ^ 32`: deriving `index` and `index % 2 ^ 32` yields the same address, and
re-deriving the same index yields an identical address. -/
theorem c8_trc20_derivation_pure_mod :
    ∀ (d : TronDeriver) (mn : String) (i : Nat),
      generate_trc20_wallet d mn i = generate_trc20_wallet d mn (i % 2 ^ 32) ∧
      generate_trc20_wallet d mn i = generate_trc20_wallet d mn i := by
  intro d mn i
  refine ⟨?_, rfl⟩
  exact (congrArg (d.toAddress mn) (Nat.mod_mod_of_dvd i dvd_rfl)).symm

/-- C3.  The success handler's idempotency guard: if the re-read status is
already `paid` or `completed` the handler returns with no store change, no
fulfillment call and no notice; consequently two successive runs of the
success path over the same sufficient-balance snapshot mark the order `paid`
exactly once and invoke the fulfillment provider at most once (the second run
finds the order advanced and aborts). -/
theorem c3_success_handler_idempotency :
    (∀ (store : List Order) (o : Order) (debug : Bool) (purchase : PyDict) (cur : Order),
        get_order store o.order_id = some cur →
        cur.status = "paid" ∨ cur.status = "completed" →
        process_success store o debug purchase =
          { store := store, fulfillCalls := 0, paidMarks := 0, notes := [] }) ∧
    (∀ (store : List Order) (o : Order) (debug : Bool) (env1 env2 : FragmentEnv) (cur : Order),
        get_order store o.order_id = some cur →
        cur.status = "checking" →
        (process_success store o debug (execute_purchase env1 o)).fulfillCalls +
            (process_success (process_success store o debug (execute_purchase env1 o)).store
              o debug (execute_purchase env2 o)).fulfillCalls ≤ 1 ∧
        (process_success store o debug (execute_purchase env1 o)).paidMarks +
            (process_success (process_success store o debug (execute_purchase env1 o)).store
              o debug (execute_purchase env2 o)).paidMarks = 1) := by
  have guard : ∀ (store : List Order) (o : Order) (debug : Bool) (purchase : PyDict)
      (cur : Order), get_order store o.order_id = some cur →
      cur.status = "paid" ∨ cur.status = "completed" →
      process_success store o debug purchase =
        { store := store, fulfillCalls := 0, paidMarks := 0, notes := [] } := by
    intro store o debug purchase cur hget hst
    unfold process_success
    rw [hget]
    dsimp only
    rw [if_pos hst]
  refine ⟨guard, ?_⟩
  intro store o debug env1 env2 cur hget hst
  have h1 := process_success_checking store o debug (execute_purchase env1 o) cur hget hst
    (execute_purchase_truthy env1 o)
  have h2 : get_order (update_order_status (update_order_status store o.order_id "paid")
      o.order_id "completed") o.order_id = some { cur with status := "completed" } := by
    rw [get_order_update, get_order_update, hget]
    rfl
  rw [h1]
  rw [guard _ o debug (execute_purchase env2 o) { cur with status := "completed" } h2
    (Or.inr rfl)]
  cases debug with
  | false => simp
  | true => simp

/-- C3 witness: the guard and the two-run bound evaluated on a concrete
`checking` order. -/
theorem c3_success_handler_idempotency_witness :
    get_order [sampleChecking] sampleChecking.order_id = some sampleChecking ∧
    sampleChecking.status = "checking" ∧
    ((process_success [sampleChecking] sampleChecking false
          (execute_purchase failEnv sampleChecking)).fulfillCalls +
        (process_success (process_success [sampleChecking] sampleChecking false
            (execute_purchase failEnv sampleChecking)).store
          sampleChecking false (execute_purchase failEnv sampleChecking)).fulfillCalls ≤ 1 ∧
      (process_success [sampleChecking] sampleChecking false
          (execute_purchase failEnv sampleChecking)).paidMarks +
        (process_success (process_success [sampleChecking] sampleChecking false
            (execute_purchase failEnv sampleChecking)).store
          sampleChecking false (execute_purchase failEnv sampleChecking)).paidMarks = 1) :=
  ⟨by decide, by decide,
    c3_success_handler_idempotency.2 [sampleChecking] sampleChecking false failEnv failEnv
      sampleChecking (by decide) (by decide)⟩

/-- C4 counterexample.  The claim says the provided signature is compared
case-insensitively.  Here a payload carries the lowercase form of its correct
digest: it agrees with the computed signature up to case, yet verification
rejects it — the comparison is exact, against the uppercase hex digest. -/
theorem c4_signature_case_counterexample :
    asciiLower "9a58cc687679a828e4f6892794887f81" =
      asciiLower (generate_sign "shop1" "sek" [("unique_id", PyVal.scalar (.str "X"))]) ∧
    verify_sign "shop1" "sek" lowerSignPayload = false := by
  decide

/-- C4 as amended.  Verification canonicalizes the payload as its non-empty
fields sorted by key with the shared secret appended and takes a keyed (MD5)
digest, but compares the uppercase hex digest for exact, case-sensitive
equality with the provided signature; any payload with a missing or
mismatched signature is rejected, and the webhook handler answers 403 with no
order-state change. -/
theorem c4_signature_verification :
    (∀ (apiKey secret : String) (d : List (String × PyVal)),
        d.find? (fun p => p.1 == "sign") = none →
        verify_sign apiKey secret d = false) ∧
    (∀ (apiKey secret s : String) (d : List (String × PyVal)),
        (d.find? (fun p => p.1 == "sign")).map (fun p => p.2) =
          some (PyVal.scalar (.str s)) →
        s ≠ "" →
        (verify_sign apiKey secret d = true ↔
          s = generate_sign apiKey secret (d.filter (fun p => p.1 != "sign")))) ∧
    (∀ (env : FragmentEnv) (apiKey secret ip : String) (ips : List String)
        (store : List Order) (body : List (String × PyVal)),
        verify_sign apiKey secret body = false →
        handle_okpay_post env apiKey secret ips ip store body = (403, store, [])) := by
  refine ⟨?_, ?_, ?_⟩
  · intro apiKey secret d h
    unfold verify_sign
    rw [h]
    rfl
  · intro apiKey secret s d h hs
    unfold verify_sign
    rw [h]
    simp [pyValTruthy, pyScalarTruthy, hs, beq_iff_eq]
  · intro env apiKey secret ip ips store body h
    unfold handle_okpay_post
    by_cases hip : ips ≠ [] ∧ ip ∉ ips
    · rw [if_pos hip]
    · rw [if_neg hip, h]
      rfl

/-- C4 witness: the missing-signature case, the rejection of a concrete
mismatched payload, and the unchanged store with a 403 answer. -/
theorem c4_signature_verification_witness :
    verify_sign "shop1" "sek" ([] : List (String × PyVal)) = false ∧
    handle_okpay_post failEnv "shop1" "sek" [] "203.0.113.5" [sampleChecking]
      lowerSignPayload = (403, [sampleChecking], []) :=
  ⟨c4_signature_verification.1 "shop1" "sek" [] (by decide),
    c4_signature_verification.2.2 failEnv "shop1" "sek" "203.0.113.5" [] [sampleChecking]
      lowerSignPayload (by decide)⟩

/-- C5 counterexample.  Two orders created at different loop times for the
same requester, target and duration get distinct order ids but the same
wallet index — `abs(hash(f"\x7buser_id\x7d_\x7busername\x7d_\x7bmonths\x7d")) % 1000000`
does not depend on the order — and hence the same derived receiving address
(`pyHash` instantiated with a concrete stand-in; within one interpreter run
Python's `hash` is a fixed function, which is all the collision uses). -/
theorem c5_wallet_index_counterexample :
    (process_currency_order_data lenHash 7 (some "buyer") "alice" 3 "trc20" 30 5 6 100).order_id ≠
      (process_currency_order_data lenHash 7 (some "buyer") "alice" 3 "trc20" 30 5 6 200).order_id ∧
    (process_currency_order_data lenHash 7 (some "buyer") "alice" 3 "trc20" 30 5 6 100).wallet_index =
      (process_currency_order_data lenHash 7 (some "buyer") "alice" 3 "trc20" 30 5 6 200).wallet_index ∧
    generate_trc20_wallet sampleDeriver "seedphrase"
        (process_currency_order_data lenHash 7 (some "buyer") "alice" 3 "trc20" 30 5 6 100).wallet_index =
      generate_trc20_wallet sampleDeriver "seedphrase"
        (process_currency_order_data lenHash 7 (some "buyer") "alice" 3 "trc20" 30 5 6 200).wallet_index := by
  decide

/-- C5 as amended.  The wallet index is a pure function of
`(user_id, target, months)` reduced modulo 1000000, independent of creation
time: any two orders created at times with distinct decimal representations
for the same triple have distinct order ids, equal wallet indices, and equal
derived receiving addresses — the index (and address) is reused. -/
theorem c5_wallet_index_reuse (pyHash : String → Int) (d : TronDeriver) (mn : String)
    (u : Int) (un : Option String) (tg : String) (m : Nat) (cur : String)
    (p q pt : Rat) (t1 t2 : Nat) (h : Nat.repr t1 ≠ Nat.repr t2) :
    (process_currency_order_data pyHash u un tg m cur p q pt t1).order_id ≠
      (process_currency_order_data pyHash u un tg m cur p q pt t2).order_id ∧
    (process_currency_order_data pyHash u un tg m cur p q pt t1).wallet_index =
      (process_currency_order_data pyHash u un tg m cur p q pt t2).wallet_index ∧
    generate_trc20_wallet d mn
        (process_currency_order_data pyHash u un tg m cur p q pt t1).wallet_index =
      generate_trc20_wallet d mn
        (process_currency_order_data pyHash u un tg m cur p q pt t2).wallet_index := by
  refine ⟨?_, rfl, rfl⟩
  intro heq
  apply h
  have heq2 : "ORD" ++ toString t1 ++ toString u = "ORD" ++ toString t2 ++ toString u := heq
  have hd : ("ORD".data ++ (toString t1).data) ++ (toString u).data =
      ("ORD".data ++ (toString t2).data) ++ (toString u).data :=
    congrArg String.data heq2
  exact String.ext (List.append_cancel_left (List.append_cancel_right hd))

/-- C5 witness: the reuse theorem evaluated at loop times 100 and 200. -/
theorem c5_wallet_index_reuse_witness :
    Nat.repr 100 ≠ Nat.repr 200 ∧
    ((process_currency_order_data lenHash 9 none "bob" 6 "ton" 52 9 6 100).order_id ≠
        (process_currency_order_data lenHash 9 none "bob" 6 "ton" 52 9 6 200).order_id ∧
      (process_currency_order_data lenHash 9 none "bob" 6 "ton" 52 9 6 100).wallet_index =
        (process_currency_order_data lenHash 9 none "bob" 6 "ton" 52 9 6 200).wallet_index ∧
      generate_trc20_wallet sampleDeriver "seedphrase"
          (process_currency_order_data lenHash 9 none "bob" 6 "ton" 52 9 6 100).wallet_index =
        generate_trc20_wallet sampleDeriver "seedphrase"
          (process_currency_order_data lenHash 9 none "bob" 6 "ton" 52 9 6 200).wallet_index) :=
  ⟨by decide,
    c5_wallet_index_reuse lenHash sampleDeriver "seedphrase" 9 none "bob" 6 "ton" 52 9 6
      100 200 (by decide)⟩

/-- C9.  `create_order` on an id that is already stored does not fail: it
returns `True`, and by the `INSERT OR REPLACE` semantics the stored row under
that id afterwards is exactly the fresh row built from the new data (with
default `okpay_url` and `created_at`) — the prior order's fields and status
are not preserved. -/
theorem c9_create_order_replaces (store : List Order) (d : CreateData) (now : Int)
    (old : Order) (_dup : get_order store d.order_id = some old) :
    (create_order store d now).1 = true ∧
    get_order (create_order store d now).2 d.order_id = some (newRowOf d now) ∧
    ∀ o ∈ (create_order store d now).2, o.order_id = d.order_id → o = newRowOf d now := by
  refine ⟨rfl, ?_, ?_⟩
  · exact find_filtered_append store d.order_id (newRowOf d now) rfl
  · intro o hmem hid
    rcases List.mem_append.mp hmem with hf | hr
    · have hne := (List.mem_filter.mp hf).2
      rw [hid] at hne
      simp at hne
    · simpa using hr

/-- C9 witness: replacing the stored `completed` order `ORDC` with fresh
creation data under the same id. -/
theorem c9_create_order_replaces_witness :
    get_order [sampleCompleted] dupCreate.order_id = some sampleCompleted ∧
    ((create_order [sampleCompleted] dupCreate 99).1 = true ∧
      get_order (create_order [sampleCompleted] dupCreate 99).2 dupCreate.order_id =
        some (newRowOf dupCreate 99) ∧
      ∀ o ∈ (create_order [sampleCompleted] dupCreate 99).2,
        o.order_id = dupCreate.order_id → o = newRowOf dupCreate 99) :=
  ⟨by decide, c9_create_order_replaces [sampleCompleted] dupCreate 99 sampleCompleted (by decide)⟩

/-- C10.  A deposit callback of verified shape (`type = "deposit"`,
`status = 1`, truthy order id) whose id matches no stored order is
acknowledged as success — `handle_notification` returns `True` with the store
untouched and no notices — and through the webhook POST handler (allowed
source, valid signature, well-formed body carrying this callback) the
response is HTTP 200 with the store unchanged: the deposit is silently
dropped, not rejected. -/
theorem c10_unknown_order_acknowledged (env : FragmentEnv) (store : List Order)
    (cb : PyDict) (uid : String)
    (h1 : pyGet cb "unique_id" = some (.str uid)) (h2 : uid ≠ "")
    (h3 : pyGet cb "type" = some (.str "deposit")) (h4 : pyGet cb "status" = some (.int 1))
    (h5 : get_order store uid = none) :
    handle_notification env store cb = (true, store, []) ∧
    ∀ (apiKey secret ip : String) (ips : List String) (body : List (String × PyVal)),
      (ips = [] ∨ ip ∈ ips) →
      verify_sign apiKey secret body = true →
      (body.find? (fun p => p.1 == "data")).map (fun p => p.2) = some (PyVal.dict cb) →
      handle_okpay_post env apiKey secret ips ip store body = (200, store, []) := by
  have hmain : handle_notification env store cb = (true, store, []) := by
    unfold handle_notification
    rw [h1]
    dsimp only
    have ht : pyScalarTruthy (.str uid) = true := by simp [pyScalarTruthy, h2]
    rw [ht]
    have hcond : ¬(pyGet cb "type" ≠ some (.str "deposit") ∨
        pyGet cb "status" ≠ some (.int 1)) := by
      simp [h3, h4]
    rw [if_neg hcond]
    have hnone : get_order_by_scalar store (.str uid) = none := by
      simp [get_order_by_scalar, h5]
    rw [hnone]
    rfl
  refine ⟨hmain, ?_⟩
  intro apiKey secret ip ips body hip hver hdata
  unfold handle_okpay_post
  have hipn : ¬(ips ≠ [] ∧ ip ∉ ips) := by
    rcases hip with h | h
    · simp [h]
    · simp [h]
  rw [if_neg hipn]
  rw [if_neg (show ¬((!verify_sign apiKey secret body) = true) from by rw [hver]; decide)]
  rw [hdata]
  dsimp only
  rw [if_neg (fun hne => hne h3)]
  rw [if_neg (fun hne => hne h4)]
  rw [hmain]
  rfl

/-- C10 witness: the unknown-order callback `innerNope` against a store
holding only `ORD1`, and the full POST flow with its genuine signature. -/
theorem c10_unknown_order_acknowledged_witness :
    (pyGet innerNope "unique_id" = some (.str "NOPE") ∧
      pyGet innerNope "type" = some (.str "deposit") ∧
      pyGet innerNope "status" = some (.int 1) ∧
      get_order [sampleChecking] "NOPE" = none) ∧
    handle_notification failEnv [sampleChecking] innerNope = (true, [sampleChecking], []) ∧
    handle_okpay_post failEnv "shop1" "sek" [] "203.0.113.9" [sampleChecking] bodyNope =
      (200, [sampleChecking], []) :=
  ⟨⟨by decide, by decide, by decide, by decide⟩,
    (c10_unknown_order_acknowledged failEnv [sampleChecking] innerNope "NOPE" (by decide)
      (by decide) (by decide) (by decide) (by decide)).1,
    (c10_unknown_order_acknowledged failEnv [sampleChecking] innerNope "NOPE" (by decide)
      (by decide) (by decide) (by decide) (by decide)).2 "shop1" "sek" "203.0.113.9" []
      bodyNope (Or.inl rfl) (by decide) (by decide)⟩

end Xgacf
